import Mathlib

/-!
Shallow embedding of src/src/tooltipServiceWrapper.ts - the TooltipServiceWrapper
class of the PowerBI sample bar chart visual - together with theorems settling the
specification claims about it.

Modelling conventions:
- JavaScript null/undefined values are modelled with Option (the source only ever
  compares them with loose equality against null, which treats both alike).
- Pixel quantities (clientX, clientY, bounding-box offsets) are integers.
- The d3 event object is a chain of wrappers over a root source event; the while
  loop in getCoordinates that unwraps sourceEvent links becomes structural
  recursion on that chain.
- Calls made to the host tooltip service (show / move / hide) are reified as
  values of an inductive type, so that each handler returns the call it performs,
  or none when it performs none.
- The class has a single mutable field, handleTouchTimeoutId. Event dispatch is
  a step function from state and input event to the new state and the optional
  host-service call; sequences of events are folded with runEvents.
-/

namespace TooltipServiceWrapper

/-- The fields of a (mouse) event that the source reads: the buttons bitmask,
which may be undefined on some events, and the client coordinates. -/
structure MouseEventFields where
  buttons : Option Nat
  clientX : Int
  clientY : Int

/-- A d3 event: either a root source event, or a wrapper around a source event
(d3 wraps native events; getCoordinates unwraps the chain). Each layer carries
its own event fields; the top layer is what canDisplayTooltip inspects. -/
inductive D3Event where
  | base (fields : MouseEventFields)
  | wrapped (fields : MouseEventFields) (sourceEvent : D3Event)

/-- The fields of the top-level d3 event (what the handlers read directly). -/
def eventFields : D3Event → MouseEventFields
  | D3Event.base fields => fields
  | D3Event.wrapped fields _ => fields

/-- The root source event: the loop `while (s = e.sourceEvent) e = s` from
getCoordinates, copied from d3_eventSource. -/
def d3EventSourceOf : D3Event → MouseEventFields
  | D3Event.base fields => fields
  | D3Event.wrapped _ sourceEvent => d3EventSourceOf sourceEvent

/-- The geometry of a DOM element as the source consumes it: the left/top of
getBoundingClientRect plus the clientLeft/clientTop offsets. -/
structure ElementBox where
  rectLeft : Int
  rectTop : Int
  clientLeft : Int
  clientTop : Int

/-- TooltipServiceWrapper.getCoordinates. For pointer events the result is the
root source event position relative to the bounding box of rootNode, minus the
client offsets; otherwise the first active touch point relative to rootNode
(supplied here as the environment list touchCoordinates), and undefined (none)
when there is no active touch point. -/
def getCoordinates (rootNode : ElementBox) (isPointerEvent : Bool)
    (d3Event : D3Event) (touchCoordinates : List (Int × Int)) : Option (Int × Int) :=
  if isPointerEvent then
    let e := d3EventSourceOf d3Event
    some (e.clientX - rootNode.rectLeft - rootNode.clientLeft,
          e.clientY - rootNode.rectTop - rootNode.clientTop)
  else
    match touchCoordinates with
    | [] => none
    | t :: _ => some t

/-- TooltipEventArgs from the source, with coordinates fields that may be
undefined (none). The context element is represented by its geometry. -/
structure TooltipEventArgs (T : Type) where
  data : T
  coordinates : Option (Int × Int)
  elementCoordinates : Option (Int × Int)
  context : ElementBox
  isTouchEvent : Bool

/-- TooltipServiceWrapper.makeTooltipEventArgs. The target element, its bound
datum, and the active touch lists relative to root and target are environment
inputs. The TypeScript function unconditionally returns the constructed object
(never null), which is why the result here is always some. -/
def makeTooltipEventArgs {T : Type} (rootNode : ElementBox)
    (isPointerEvent : Bool) (isTouchEvent : Bool)
    (d3Event : D3Event) (target : ElementBox) (datum : T)
    (touchesRoot touchesTarget : List (Int × Int)) : Option (TooltipEventArgs T) :=
  some { data := datum
         coordinates := getCoordinates rootNode isPointerEvent d3Event touchesRoot
         elementCoordinates := getCoordinates target isPointerEvent d3Event touchesTarget
         context := target
         isTouchEvent := isTouchEvent }

/-- TooltipServiceWrapper.canDisplayTooltip. Denies when the event carries a
buttons field with some button pressed, or when handleTouchTimeoutId is not
null/undefined. -/
def canDisplayTooltip (handleTouchTimeoutId : Option Nat)
    (mouseEvent : MouseEventFields) : Bool :=
  let canDisplay : Bool :=
    match mouseEvent.buttons with
    | none => true
    | some buttons =>
      let hasMouseButtonPressed := buttons != 0
      !hasMouseButtonPressed
  canDisplay && handleTouchTimeoutId.isNone

/-- The ternary `selectionId ? [selectionId] : []` building the identities list
passed to the host service. -/
def identityList {Id : Type} : Option Id → List Id
  | some selectionId => [selectionId]
  | none => []

/-- A call made to the host tooltip service, reified: show, move or hide with
the exact request fields the source passes. In move, dataItems may be
undefined (none); in show it is always a list because of the null guard. -/
inductive HostCall (Item Id : Type) where
  | showOp (coordinates : Option (Int × Int)) (isTouchEvent : Bool)
      (dataItems : List Item) (identities : List Id)
  | moveOp (coordinates : Option (Int × Int)) (isTouchEvent : Bool)
      (dataItems : Option (List Item)) (identities : List Id)
  | hideOp (isTouchEvent : Bool) (immediately : Bool)

/-- The mouseover.tooltip handler body from addTooltip: gate, args
construction, null guard on args, null guard on tooltip info, then show. -/
def mouseoverHandler {T Item Id : Type}
    (handleTouchTimeoutId : Option Nat) (rootNode : ElementBox)
    (getTooltipInfoDelegate : TooltipEventArgs T → Option (List Item))
    (getDataPointIdentity : TooltipEventArgs T → Option Id)
    (d3Event : D3Event) (target : ElementBox) (datum : T)
    (touchesRoot touchesTarget : List (Int × Int)) : Option (HostCall Item Id) :=
  if !canDisplayTooltip handleTouchTimeoutId (eventFields d3Event) then
    none
  else
    match makeTooltipEventArgs rootNode true false d3Event target datum touchesRoot touchesTarget with
    | none => none
    | some tooltipEventArgs =>
      match getTooltipInfoDelegate tooltipEventArgs with
      | none => none
      | some tooltipInfo =>
        let selectionId := getDataPointIdentity tooltipEventArgs
        some (HostCall.showOp tooltipEventArgs.coordinates false tooltipInfo
          (identityList selectionId))

/-- The mouseout.tooltip handler body from addTooltip: unconditional hide with
isTouchEvent false and immediately false. -/
def mouseoutHandler {Item Id : Type} : Option (HostCall Item Id) :=
  some (HostCall.hideOp false false)

/-- The mousemove.tooltip handler body from addTooltip: gate, args
construction, null guard on args; tooltip info is recomputed (with a null
guard) only when reloadTooltipDataOnMouseMove, and stays undefined otherwise;
then move with a freshly computed identity list. -/
def mousemoveHandler {T Item Id : Type}
    (handleTouchTimeoutId : Option Nat) (rootNode : ElementBox)
    (getTooltipInfoDelegate : TooltipEventArgs T → Option (List Item))
    (getDataPointIdentity : TooltipEventArgs T → Option Id)
    (reloadTooltipDataOnMouseMove : Bool)
    (d3Event : D3Event) (target : ElementBox) (datum : T)
    (touchesRoot touchesTarget : List (Int × Int)) : Option (HostCall Item Id) :=
  if !canDisplayTooltip handleTouchTimeoutId (eventFields d3Event) then
    none
  else
    match makeTooltipEventArgs rootNode true false d3Event target datum touchesRoot touchesTarget with
    | none => none
    | some tooltipEventArgs =>
      if reloadTooltipDataOnMouseMove then
        match getTooltipInfoDelegate tooltipEventArgs with
        | none => none
        | some tooltipInfo =>
          some (HostCall.moveOp tooltipEventArgs.coordinates false (some tooltipInfo)
            (identityList (getDataPointIdentity tooltipEventArgs)))
      else
        some (HostCall.moveOp tooltipEventArgs.coordinates false none
          (identityList (getDataPointIdentity tooltipEventArgs)))

/-- The mutable state of a TooltipServiceWrapper instance: the touch timeout id
(the only field any method could mutate) and the configured delay. The
constructor leaves handleTouchTimeoutId undefined. -/
structure WrapperState where
  handleTouchTimeoutId : Option Nat
  handleTouchDelay : Nat

/-- DefaultHandleTouchDelay from the source. -/
def DefaultHandleTouchDelay : Nat := 1000

/-- The state right after construction: handleTouchTimeoutId is declared but
never assigned, so it starts undefined (none). -/
def initState (handleTouchDelay : Nat) : WrapperState :=
  { handleTouchTimeoutId := none, handleTouchDelay := handleTouchDelay }

/-- The public hide method (the dismiss operation of the spec): unconditionally
calls the host hide with immediately true and isTouchEvent false; it reads no
state and mutates none. -/
def hide {Item Id : Type} (st : WrapperState) : HostCall Item Id :=
  HostCall.hideOp false true

/-- The three namespaced listener slots addTooltip binds
(mouseover.tooltip, mouseout.tooltip, mousemove.tooltip). -/
inductive TooltipEventSlot where
  | mouseoverTooltip
  | mouseoutTooltip
  | mousemoveTooltip

/-- The listener registrations addTooltip performs, as element/slot pairs. The
selection is an optional list of elements (none for a null/undefined
selection); a falsy selection or a disabled host service makes addTooltip
return before any selection.on call, and each selection.on call binds its slot
on every element of the selection. -/
def addTooltipRegistrations {α : Type} (selection : Option (List α))
    (serviceEnabled : Bool) : List (α × TooltipEventSlot) :=
  if selection.isNone || !serviceEnabled then
    []
  else
    (selection.getD []).map (fun el => (el, TooltipEventSlot.mouseoverTooltip)) ++
    (selection.getD []).map (fun el => (el, TooltipEventSlot.mouseoutTooltip)) ++
    (selection.getD []).map (fun el => (el, TooltipEventSlot.mousemoveTooltip))

/-- The arguments of one addTooltip call that the bound handlers close over:
the root element, the two caller callbacks and the reload flag. -/
structure AttachConfig (T Item Id : Type) where
  rootNode : ElementBox
  getTooltipInfoDelegate : TooltipEventArgs T → Option (List Item)
  getDataPointIdentity : TooltipEventArgs T → Option Id
  reloadTooltipDataOnMouseMove : Bool

/-- An input event delivered to an attached element. Each carries a timestamp
in milliseconds; mouse events also carry the d3 event, the target element, its
bound datum and the active touch lists. The source binds no touchstart or
touchend listener, so those events reach no handler. -/
inductive InputEvent (T : Type) where
  | touchstart (time : Nat)
  | touchend (time : Nat)
  | mouseover (time : Nat) (d3Event : D3Event) (target : ElementBox) (datum : T)
      (touchesRoot touchesTarget : List (Int × Int))
  | mouseout (time : Nat)
  | mousemove (time : Nat) (d3Event : D3Event) (target : ElementBox) (datum : T)
      (touchesRoot touchesTarget : List (Int × Int))
  | hideCall (time : Nat)

/-- One dispatch step: the new wrapper state and the host-service call made, if
any. touchstart and touchend have no registered handler in the source, so they
change nothing and call nothing; no code path assigns handleTouchTimeoutId, so
the state component is returned unchanged by every event. -/
def step {T Item Id : Type} (cfg : AttachConfig T Item Id) (st : WrapperState) :
    InputEvent T → WrapperState × Option (HostCall Item Id)
  | InputEvent.touchstart _ => (st, none)
  | InputEvent.touchend _ => (st, none)
  | InputEvent.mouseover _ ev target datum tr tt =>
    (st, mouseoverHandler st.handleTouchTimeoutId cfg.rootNode
      cfg.getTooltipInfoDelegate cfg.getDataPointIdentity ev target datum tr tt)
  | InputEvent.mouseout _ => (st, mouseoutHandler)
  | InputEvent.mousemove _ ev target datum tr tt =>
    (st, mousemoveHandler st.handleTouchTimeoutId cfg.rootNode
      cfg.getTooltipInfoDelegate cfg.getDataPointIdentity
      cfg.reloadTooltipDataOnMouseMove ev target datum tr tt)
  | InputEvent.hideCall _ => (st, some (hide st))

/-- Fold a sequence of input events from a state, collecting the host-service
calls in order. -/
def runEvents {T Item Id : Type} (cfg : AttachConfig T Item Id)
    (st : WrapperState) : List (InputEvent T) → WrapperState × List (HostCall Item Id)
  | [] => (st, [])
  | ev :: rest =>
    let out := step cfg st ev
    let next := runEvents cfg out.fst rest
    (next.fst, out.snd.toList ++ next.snd)

/-- Example root element: bounding box at viewport offset (100, 50), zero
client offsets (the worked example of the spec). -/
def exRoot : ElementBox := { rectLeft := 100, rectTop := 50, clientLeft := 0, clientTop := 0 }

/-- Example target element under the pointer. -/
def exTarget : ElementBox := { rectLeft := 110, rectTop := 60, clientLeft := 0, clientTop := 0 }

/-- Example root source event: no button pressed, clientX 130, clientY 90. -/
def exMouseEvent : D3Event := D3Event.base { buttons := some 0, clientX := 130, clientY := 90 }

/-- Example wrapped d3 event: a wrapper (with its own client position) around
the root source event exMouseEvent; coordinate resolution must unwrap down to
the root. -/
def exWrappedEvent : D3Event :=
  D3Event.wrapped { buttons := some 0, clientX := 0, clientY := 0 } exMouseEvent

/-- Example attach configuration: unit data, an info delegate that always
returns one item, an identity delegate that always returns null, and
reloadTooltipDataOnMouseMove false. -/
def exCfg : AttachConfig Unit Unit Unit :=
  { rootNode := exRoot
    getTooltipInfoDelegate := fun _ => some [()]
    getDataPointIdentity := fun _ => none
    reloadTooltipDataOnMouseMove := false }

/-- No step ever changes the wrapper state: no handler assigns
handleTouchTimeoutId (the source registers no touch listeners and no timer). -/
theorem step_fst {T Item Id : Type} (cfg : AttachConfig T Item Id)
    (st : WrapperState) (ev : InputEvent T) : (step cfg st ev).fst = st := by
  cases ev <;> rfl

/-- Running any event sequence leaves the wrapper state unchanged. -/
theorem runEvents_fst {T Item Id : Type} (cfg : AttachConfig T Item Id)
    (st : WrapperState) (evs : List (InputEvent T)) :
    (runEvents cfg st evs).fst = st := by
  induction evs generalizing st with
  | nil => rfl
  | cons ev rest ih => simp [runEvents, step_fst, ih]

/-- C5: canDisplayTooltip returns false exactly when the event carries a
defined buttons field with some button pressed, or the suppression handle is
non-null; in all other cases it returns true. -/
theorem canDisplayTooltip_false_iff (handleTouchTimeoutId : Option Nat)
    (f : MouseEventFields) :
    canDisplayTooltip handleTouchTimeoutId f = false ↔
      ((∃ b, f.buttons = some b ∧ b ≠ 0) ∨ handleTouchTimeoutId ≠ none) := by
  cases htid : handleTouchTimeoutId <;> cases hb : f.buttons <;>
    simp [canDisplayTooltip, hb]

/-- C3: in every state reachable from construction (under any attach
configuration and any event sequence) handleTouchTimeoutId is still none,
because no operation ever assigns it; and with a none handle the gate decision
is exactly the mouse-button check. -/
theorem handleTouchTimeoutId_never_assigned :
    (∀ (T Item Id : Type) (cfg : AttachConfig T Item Id) (delay : Nat)
        (evs : List (InputEvent T)),
      (runEvents cfg (initState delay) evs).fst.handleTouchTimeoutId = none)
    ∧ (∀ f : MouseEventFields,
        canDisplayTooltip none f = (f.buttons.getD 0 == 0)) := by
  constructor
  · intro T Item Id cfg delay evs
    rw [runEvents_fst]
    rfl
  · intro f
    cases hb : f.buttons <;> simp [canDisplayTooltip, hb, bne]

/-- C1: a touch-start, then a touch-end, then a synthesized mouseover on the
same element, at arbitrary timestamps (hence in particular within
handleTouchDelay of the touch-end) still produces a show call, because the
source wires no touch listeners and never sets the suppression handle. -/
theorem touch_then_mouseover_still_shows (t1 t2 t3 delay : Nat) :
    (runEvents exCfg (initState delay)
      [InputEvent.touchstart t1, InputEvent.touchend t2,
       InputEvent.mouseover t3 exMouseEvent exTarget () [] []]).snd =
      [HostCall.showOp (some (30, 40)) false [()] []] := by
  rfl

/-- C2: makeTooltipEventArgs never returns none, so the null guard on the args
object in the handlers can never abort; in particular a touch-driven
construction with zero active touch points returns a some args object whose
coordinates field is none (unusable, yet not aborted on). -/
theorem makeTooltipEventArgs_always_some :
    (∀ (T : Type) (rootNode target : ElementBox)
        (isPointerEvent isTouchEvent : Bool) (d3Event : D3Event) (datum : T)
        (touchesRoot touchesTarget : List (Int × Int)),
      (makeTooltipEventArgs rootNode isPointerEvent isTouchEvent d3Event target
        datum touchesRoot touchesTarget).isSome = true)
    ∧ (∃ args : TooltipEventArgs Unit,
        makeTooltipEventArgs exRoot false true exMouseEvent exTarget () [] [] =
          some args ∧ args.coordinates = none) := by
  exact ⟨fun _ _ _ _ _ _ _ _ _ => rfl, ⟨_, rfl, rfl⟩⟩

/-- C4: a null/undefined selection, an empty selection, or a disabled host
tooltip service makes addTooltip register no event handler at all. -/
theorem addTooltip_noop (α : Type) (selection : Option (List α)) (enabled : Bool)
    (h : selection = none ∨ selection = some [] ∨ enabled = false) :
    addTooltipRegistrations selection enabled = [] := by
  rcases h with h | h | h <;> simp [addTooltipRegistrations, h]

/-- C4 witness: the empty-selection case at a concrete input. -/
theorem addTooltip_noop_witness :
    addTooltipRegistrations (some ([] : List Nat)) true = [] :=
  addTooltip_noop Nat (some []) true (Or.inr (Or.inl rfl))

/-- C6: for pointer-driven events the resolved coordinates are the client
position of the root source event (obtained by unwrapping the wrapper chain)
minus the bounding-box offset and the client offset of the reference element;
the worked example (root at (100, 50), zero client offsets, source event at
(130, 90) under a wrapper) yields (30, 40). -/
theorem getCoordinates_pointer_formula :
    (∀ (rootNode : ElementBox) (d3Event : D3Event) (touches : List (Int × Int)),
      getCoordinates rootNode true d3Event touches =
        some ((d3EventSourceOf d3Event).clientX - rootNode.rectLeft - rootNode.clientLeft,
              (d3EventSourceOf d3Event).clientY - rootNode.rectTop - rootNode.clientTop))
    ∧ getCoordinates exRoot true exWrappedEvent [] = some (30, 40) := by
  exact ⟨fun _ _ _ => rfl, rfl⟩

/-- C7: when the gate allows and the coordinates resolve, a mousemove with
reloadTooltipDataOnMouseMove false calls move with dataItems undefined and
identities freshly recomputed from getDataPointIdentity on that event args
(the handler keeps no state from earlier events). -/
theorem mousemove_noReload_calls_move {T Item Id : Type}
    (handleTouchTimeoutId : Option Nat) (rootNode target : ElementBox)
    (getTooltipInfoDelegate : TooltipEventArgs T → Option (List Item))
    (getDataPointIdentity : TooltipEventArgs T → Option Id)
    (d3Event : D3Event) (datum : T) (touchesRoot touchesTarget : List (Int × Int))
    (hgate : canDisplayTooltip handleTouchTimeoutId (eventFields d3Event) = true)
    (hres : (getCoordinates rootNode true d3Event touchesRoot).isSome = true) :
    ∃ args : TooltipEventArgs T,
      makeTooltipEventArgs rootNode true false d3Event target datum
        touchesRoot touchesTarget = some args ∧
      mousemoveHandler handleTouchTimeoutId rootNode getTooltipInfoDelegate
          getDataPointIdentity false d3Event target datum touchesRoot touchesTarget =
        some (HostCall.moveOp args.coordinates false none
          (identityList (getDataPointIdentity args))) := by
  refine ⟨_, rfl, ?_⟩
  simp [mousemoveHandler, hgate, makeTooltipEventArgs]

/-- C7 witness: a concrete mousemove with the gate passing and coordinates
resolved. -/
theorem mousemove_noReload_calls_move_witness :
    ∃ args : TooltipEventArgs Unit,
      makeTooltipEventArgs exRoot true false exMouseEvent exTarget () [] [] =
        some args ∧
      mousemoveHandler (none : Option Nat) exRoot
          (fun _ => some [()]) (fun _ => (none : Option Unit)) false
          exMouseEvent exTarget () [] [] =
        some (HostCall.moveOp args.coordinates false none []) :=
  mousemove_noReload_calls_move none exRoot exTarget (fun _ => some [()])
    (fun _ => (none : Option Unit)) exMouseEvent () [] [] rfl rfl

/-- C8: when the tooltip info delegate returns null on mouseover, the handler
makes no host call at all; in particular show is never called. -/
theorem mouseover_nullInfo_no_show {T Item Id : Type}
    (handleTouchTimeoutId : Option Nat) (rootNode target : ElementBox)
    (getTooltipInfoDelegate : TooltipEventArgs T → Option (List Item))
    (getDataPointIdentity : TooltipEventArgs T → Option Id)
    (d3Event : D3Event) (datum : T) (touchesRoot touchesTarget : List (Int × Int))
    (hinfo : ∀ args, getTooltipInfoDelegate args = none) :
    mouseoverHandler handleTouchTimeoutId rootNode getTooltipInfoDelegate
      getDataPointIdentity d3Event target datum touchesRoot touchesTarget = none := by
  cases h : canDisplayTooltip handleTouchTimeoutId (eventFields d3Event) <;>
    simp [mouseoverHandler, h, makeTooltipEventArgs, hinfo]

/-- C8 witness: a concrete mouseover whose info delegate returns null. -/
theorem mouseover_nullInfo_no_show_witness :
    mouseoverHandler (none : Option Nat) exRoot
      (fun _ : TooltipEventArgs Unit => (none : Option (List Unit)))
      (fun _ => (none : Option Unit)) exMouseEvent exTarget () [] [] = none :=
  mouseover_nullInfo_no_show none exRoot exTarget
    (fun _ => (none : Option (List Unit))) (fun _ => (none : Option Unit))
    exMouseEvent () [] [] (fun _ => rfl)

/-- C9: on a mouseover that reaches show, a null identity from
getDataPointIdentity yields identities equal to the empty list (present, not
omitted), and a non-null identity yields the one-element list containing it. -/
theorem mouseover_identities {T Item Id : Type}
    (handleTouchTimeoutId : Option Nat) (rootNode target : ElementBox)
    (getTooltipInfoDelegate : TooltipEventArgs T → Option (List Item))
    (getDataPointIdentity : TooltipEventArgs T → Option Id)
    (d3Event : D3Event) (datum : T) (touchesRoot touchesTarget : List (Int × Int))
    (items : List Item)
    (hgate : canDisplayTooltip handleTouchTimeoutId (eventFields d3Event) = true)
    (hinfo : ∀ args, getTooltipInfoDelegate args = some items) :
    ((∀ args, getDataPointIdentity args = none) →
      mouseoverHandler handleTouchTimeoutId rootNode getTooltipInfoDelegate
        getDataPointIdentity d3Event target datum touchesRoot touchesTarget =
        some (HostCall.showOp (getCoordinates rootNode true d3Event touchesRoot)
          false items []))
    ∧ (∀ i : Id, (∀ args, getDataPointIdentity args = some i) →
      mouseoverHandler handleTouchTimeoutId rootNode getTooltipInfoDelegate
        getDataPointIdentity d3Event target datum touchesRoot touchesTarget =
        some (HostCall.showOp (getCoordinates rootNode true d3Event touchesRoot)
          false items [i])) := by
  constructor
  · intro hident
    simp [mouseoverHandler, hgate, makeTooltipEventArgs, hinfo, hident, identityList]
  · intro i hident
    simp [mouseoverHandler, hgate, makeTooltipEventArgs, hinfo, hident, identityList]

/-- C9 witness: a concrete mouseover whose identity delegate returns null,
reaching show with an empty identities list. -/
theorem mouseover_identities_witness :
    mouseoverHandler (none : Option Nat) exRoot
      (fun _ : TooltipEventArgs Unit => some [()])
      (fun _ => (none : Option Unit)) exMouseEvent exTarget () [] [] =
      some (HostCall.showOp (getCoordinates exRoot true exMouseEvent []) false [()] []) :=
  (mouseover_identities none exRoot exTarget (fun _ => some [()])
    (fun _ => (none : Option Unit)) exMouseEvent () [] [] [()]
    rfl (fun _ => rfl)).1 (fun _ => rfl)

/-- C10: the public hide method (the dismiss operation) calls the host hide
with immediately true and isTouchEvent false, in every state, and dispatching
it as an event makes exactly that call and changes no state. -/
theorem hide_always_immediate :
    (∀ (Item Id : Type) (st : WrapperState),
      (hide st : HostCall Item Id) = HostCall.hideOp false true)
    ∧ (∀ (T Item Id : Type) (cfg : AttachConfig T Item Id) (st : WrapperState)
        (t : Nat),
      step cfg st (InputEvent.hideCall t) = (st, some (HostCall.hideOp false true))) := by
  exact ⟨fun _ _ _ => rfl, fun _ _ _ _ _ _ => rfl⟩

end TooltipServiceWrapper
